import Mathlib

/-!
Verification of the comfyone-sdk backend scheduler core: backend registry,
policy configuration store, and the policy selection engine
(round-robin, weighted, all-active, random), shallowly embedded from
`src/comfyone/scheduler/` (policies.py, db_operations.py, database.py,
models.py, backend_scheduler.py, api.py).

Conventions of the embedding:
* Python lists become `List`, mutation becomes explicit state passing.
* Python `int` becomes `Int`; `Optional[int]` becomes `Option Int`.
* Python exceptions become an explicit `PyErr` value; a stateful operation
  that may raise returns `Except PyErr τ × State`, where the state component
  is the (unchanged on error) store.
* `l[:m]` (Python slice with a possibly negative bound) becomes `pyTakeInt`.
* `x or 1` on an `Optional[int]` (None and 0 are falsy) becomes `pyOrOne`.
-/

/-- A backend record as stored by the scheduler database
(`database.py` BackendDB: app_id, instance_id, weight, state) and as carried
by the domain model used by `db_operations.py`.  `from_orm` is the identity
on these fields. -/
structure Backend where
  app_id : String
  instance_id : String
  weight : Int
  state : String
deriving DecidableEq, Repr

/-- The closed set of policy variants (`models.py` PolicyType). -/
inductive PolicyType where
  | round_robin
  | weighted
  | all_active
  | random
deriving DecidableEq, Repr

/-- String value of a PolicyType (the str-enum value in models.py). -/
def PolicyType.val : PolicyType → String
  | .round_robin => "round_robin"
  | .weighted => "weighted"
  | .all_active => "all_active"
  | .random => "random"

/-- A persisted policy configuration row (`database.py` PolicyDB). -/
structure PolicyRow where
  app_id : String
  policy_type : PolicyType
  limit : Int
deriving DecidableEq, Repr

/-- A live policy-engine instance: the policy object held in a cache or in
POLICY_MAP.  `limit` is the instance attribute `self.limit`
(`Optional[int]`), `cursor` is `RoundRobinPolicy._current_index`
(meaningful only when `ptype` is round_robin; 0 otherwise). -/
structure PolicyRuntime where
  ptype : PolicyType
  limit : Option Int
  cursor : Nat
deriving DecidableEq, Repr

/-- The exceptions raised by the scheduler source: `ValueError` in
db_operations.py, `HTTPException` in the router layer. -/
inductive PyErr where
  | valueError (msg : String)
  | httpException (status : Int) (detail : String)
deriving DecidableEq, Repr

/-- The Python exception class of an error value. -/
def PyErr.className : PyErr → String
  | .valueError _ => "ValueError"
  | .httpException _ _ => "HTTPException"

/-- The response envelope (`models.py` APIResponse): code 0 success,
code 1 failure. -/
structure APIResponse (T : Type) where
  code : Int
  msg : String
  data : Option T
deriving DecidableEq, Repr

/-- `APIResponse.success` classmethod. -/
def APIResponse.success {T : Type} (data : Option T) (msg : String) : APIResponse T :=
  { code := 0, msg := msg, data := data }

/-- `APIResponse.error` classmethod. -/
def APIResponse.error {T : Type} (msg : String) : APIResponse T :=
  { code := 1, msg := msg, data := none }

/-- Python slice `l[:m]`: nonnegative `m` takes the first `m` elements,
negative `m` drops `-m` elements from the end. -/
def pyTakeInt {α : Type} (l : List α) (m : Int) : List α :=
  if 0 ≤ m then l.take m.toNat else l.take (l.length - (-m).toNat)

/-- Python `self.limit or 1` on an `Optional[int]`: `None` and `0` are
falsy and yield 1; any other integer is returned unchanged. -/
def pyOrOne : Option Int → Int
  | none => 1
  | some v => if v = 0 then 1 else v

/-- `BackendPolicy._apply_limit` (policies.py lines 25-29): if a limit is
set and the list is longer than it, slice to the limit; otherwise return
the list unchanged. -/
def applyLimit {α : Type} (limit : Option Int) (backends : List α) : List α :=
  match limit with
  | none => backends
  | some m => if (backends.length : Int) > m then pyTakeInt backends m else backends

/-- `BackendPolicy.update_limit` (policies.py lines 12-13): assign
`self.limit = new_limit` on the live instance; nothing else (in
particular the round-robin cursor) changes. -/
def BackendPolicy.update_limit (p : PolicyRuntime) (new_limit : Int) : PolicyRuntime :=
  { p with limit := some new_limit }

/-- `RoundRobinPolicy.select_backends` (policies.py lines 38-56), with the
instance state passed and returned explicitly.  Mirrors the source order:
empty-candidates early return, active filter, empty-active early return,
`self.limit = min(self.limit or 1, len(active))`, rotated view from the
current index, cursor advance modulo the active count, `_apply_limit`. -/
def RoundRobinPolicy.select_backends (st : PolicyRuntime) (backends : List Backend) :
    List Backend × PolicyRuntime :=
  if backends.isEmpty then ([], st) else
  let active := backends.filter (fun b => b.state == "active")
  if active.isEmpty then ([], st) else
  let eff : Int := min (pyOrOne st.limit) (active.length : Int)
  let view := active.drop st.cursor ++ active.take st.cursor
  let cursor2 := (((st.cursor : Int) + eff) % (active.length : Int)).toNat
  (applyLimit (some eff) view, { st with limit := some eff, cursor := cursor2 })

/-- Stable insertion into a weight-descending list: the new element goes
after every element of greater-or-equal weight, matching the placement a
stable descending sort gives an element relative to those inserted
before it. -/
def orderedInsertDesc (a : Backend) : List Backend → List Backend
  | [] => [a]
  | b :: l => if b.weight ≤ a.weight then a :: b :: l else b :: orderedInsertDesc a l

/-- Stable sort by weight, descending — the semantics of
`sorted(active_backends, key=lambda x: x.weight, reverse=True)`
(policies.py line 72); Python sort is stable and a stable sort under a
total preorder is unique, so insertion sort is an exact model. -/
def sortDescWeight : List Backend → List Backend
  | [] => []
  | a :: l => orderedInsertDesc a (sortDescWeight l)

/-- `WeightedPolicy.select_backends` (policies.py lines 66-73): filter
active, empty early return, stable descending sort by weight,
`_apply_limit`.  The instance limit is not reassigned, so the function is
pure in the instance state. -/
def WeightedPolicy.select_backends (limit : Option Int) (backends : List Backend) :
    List Backend :=
  let active := backends.filter (fun b => b.state == "active")
  if active.isEmpty then [] else applyLimit limit (sortDescWeight active)

/-- `AllActivePolicy.select_backends` (policies.py lines 80-82): filter
active, `_apply_limit`; no empty-check in the source. -/
def AllActivePolicy.select_backends (limit : Option Int) (backends : List Backend) :
    List Backend :=
  applyLimit limit (backends.filter (fun b => b.state == "active"))

/-- `RandomPolicy.select_backends` (policies.py lines 93-101): filter
active, empty early return, shuffle, `_apply_limit`.  The random shuffle is
modelled as an explicit permutation oracle parameter. -/
def RandomPolicy.select_backends (shuffle : List Backend → List Backend)
    (limit : Option Int) (backends : List Backend) : List Backend :=
  let active := backends.filter (fun b => b.state == "active")
  if active.isEmpty then [] else applyLimit limit (shuffle active)

/-- Remove the first element satisfying `p` (SQLAlchemy `db.delete` of the
record returned by `.first()`). -/
def removeFirst {α : Type} (p : α → Bool) : List α → List α
  | [] => []
  | a :: l => if p a then l else a :: removeFirst p l

/-- Replace the first element satisfying `p` with `x` (in-place mutation of
the record returned by `.first()`, then commit). -/
def updateFirst {α : Type} (p : α → Bool) (x : α) : List α → List α
  | [] => []
  | a :: l => if p a then x :: l else a :: updateFirst p x l

/-- The scheduler database state: the `backends` table and the `policies`
table of database.py. -/
structure DB where
  backends : List Backend
  policies : List PolicyRow
deriving DecidableEq, Repr

/-- `DBOperations.add_backend` (db_operations.py lines 7-26): fail with
`ValueError` if some row anywhere in the registry already has this
`instance_id`; otherwise insert a row built from the backend fields and
return it (via the identity `from_orm`).  On error the store is
unchanged. -/
def DBOperations.add_backend (db : DB) (backend : Backend) :
    Except PyErr Backend × DB :=
  match db.backends.find? (fun r => r.instance_id == backend.instance_id) with
  | some _ =>
    (.error (.valueError ("Backend with " ++ backend.instance_id ++ " already exists")), db)
  | none =>
    let row : Backend :=
      { app_id := backend.app_id, instance_id := backend.instance_id,
        weight := backend.weight, state := backend.state }
    (.ok row, { db with backends := db.backends ++ [row] })

/-- `DBOperations.remove_backend` (db_operations.py lines 40-54): fail with
`ValueError "Backend not found"` if no row matches both `app_id` and
`instance_id`; otherwise delete the first match and return it. -/
def DBOperations.remove_backend (db : DB) (app_id backend_id : String) :
    Except PyErr Backend × DB :=
  match db.backends.find? (fun r => r.app_id == app_id && r.instance_id == backend_id) with
  | none => (.error (.valueError "Backend not found"), db)
  | some r =>
    let rest := removeFirst (fun x => x.app_id == app_id && x.instance_id == backend_id) db.backends
    (.ok r, { db with backends := rest })

/-- `DBOperations.update_backend_weight` (db_operations.py lines 98-117):
`weight < 1` fails with `ValueError` before any lookup; a missing record
fails with `ValueError "Backend not found"`; otherwise the first matching
row's weight is set and the updated record returned. -/
def DBOperations.update_backend_weight (db : DB) (app_id backend_id : String)
    (weight : Int) : Except PyErr Backend × DB :=
  if weight < 1 then (.error (.valueError "Weight must be greater than 0"), db)
  else
    match db.backends.find? (fun r => r.app_id == app_id && r.instance_id == backend_id) with
    | none => (.error (.valueError "Backend not found"), db)
    | some r =>
      let r2 : Backend := { r with weight := weight }
      let rows := updateFirst (fun x => x.app_id == app_id && x.instance_id == backend_id) r2 db.backends
      (.ok r2, { db with backends := rows })

/-- `DBOperations.get_policy`-style lookup used before deciding on an
upsert: the first policy row for the app id, if any. -/
def getPolicyOpt (db : DB) (app_id : String) : Option PolicyRow :=
  db.policies.find? (fun p => p.app_id == app_id)

/-- `DBOperations.add_or_update_policy` (db_operations.py lines 119-137):
insert a new `PolicyDB` row when the app has none, otherwise overwrite the
type and limit of the existing row; return the resulting row. -/
def DBOperations.add_or_update_policy (db : DB) (app_id : String) (policy : PolicyRow) :
    PolicyRow × DB :=
  match db.policies.find? (fun p => p.app_id == app_id) with
  | none =>
    let row : PolicyRow :=
      { app_id := app_id, policy_type := policy.policy_type, limit := policy.limit }
    (row, { db with policies := db.policies ++ [row] })
  | some p0 =>
    let row : PolicyRow :=
      { p0 with policy_type := policy.policy_type, limit := policy.limit }
    (row, { db with policies := updateFirst (fun q => q.app_id == app_id) row db.policies })

/-- The default policy configuration lazily created by the facade
(`round_robin`, limit 1). -/
def defaultPolicyRow (app_id : String) : PolicyRow :=
  { app_id := app_id, policy_type := .round_robin, limit := 1 }

/-- The global `POLICY_MAP` (models.py lines 55-60, backend_scheduler.py
lines 43-48): ONE shared live instance per policy type, constructed once at
module import — `RoundRobinPolicy(limit=1)`, `WeightedPolicy(limit=3)`,
`AllActivePolicy(limit=5)`, `RandomPolicy(limit=1)` — not per app id. -/
structure PolicyMap where
  rr : PolicyRuntime
  wt : PolicyRuntime
  aa : PolicyRuntime
  rnd : PolicyRuntime
deriving DecidableEq, Repr

/-- The POLICY_MAP value at module import time. -/
def initPolicyMap : PolicyMap :=
  { rr := { ptype := .round_robin, limit := some 1, cursor := 0 },
    wt := { ptype := .weighted, limit := some 3, cursor := 0 },
    aa := { ptype := .all_active, limit := some 5, cursor := 0 },
    rnd := { ptype := .random, limit := some 1, cursor := 0 } }

/-- `POLICY_MAP.get(policy_type)` for a known policy type (every enum value
is a key of the dict, so the lookup always succeeds). -/
def PolicyMap.get (m : PolicyMap) : PolicyType → PolicyRuntime
  | .round_robin => m.rr
  | .weighted => m.wt
  | .all_active => m.aa
  | .random => m.rnd

/-- Store an updated live instance back under its policy type. -/
def PolicyMap.set (m : PolicyMap) : PolicyType → PolicyRuntime → PolicyMap
  | .round_robin, p => { m with rr := p }
  | .weighted, p => { m with wt := p }
  | .all_active, p => { m with aa := p }
  | .random, p => { m with rnd := p }

/-- `BackendScheduler.update_policy_limit` (backend_scheduler.py lines
138-151): look the shared instance up in POLICY_MAP (always found for an
enum value), call `update_limit(new_limit)` with NO validation of the
value, and return a success envelope carrying the policy type and the new
limit. -/
def update_policy_limit (m : PolicyMap) (policy_type : PolicyType) (new_limit : Int) :
    APIResponse (PolicyType × Int) × PolicyMap :=
  let p := m.get policy_type
  let p2 := BackendPolicy.update_limit p new_limit
  (APIResponse.success (some (policy_type, new_limit))
      ("Updated " ++ policy_type.val ++ " limit to " ++ toString new_limit),
   m.set policy_type p2)

/-- A round-robin selection served through the shared POLICY_MAP instance,
as the `GET /v1/\x7bapp_id\x7d/backends?policy=round_robin` route of
backend_scheduler.py does: `POLICY_MAP[ROUND_ROBIN].select_backends(rows)`.
The cursor mutation lands in the single shared instance, whatever app id
the rows belong to. -/
def sharedSelectRR (m : PolicyMap) (backends : List Backend) :
    List Backend × PolicyMap :=
  let r := RoundRobinPolicy.select_backends m.rr backends
  (r.1, { m with rr := r.2 })

/-- The per-app policy-runtime cache: app_id to live instance. -/
abbrev PolicyCache : Type := List (String × PolicyRuntime)

/-- Cache lookup by app id. -/
def cacheGet (c : PolicyCache) (app_id : String) : Option PolicyRuntime :=
  ((List.find? (fun x => x.1 == app_id) c)).map (fun x => x.2)

/-- Cache write (replace the entry for the app id, or append one). -/
def cacheSet (c : PolicyCache) (app_id : String) (rt : PolicyRuntime) : PolicyCache :=
  match List.find? (fun x => x.1 == app_id) c with
  | some _ => updateFirst (fun x => x.1 == app_id) (app_id, rt) c
  | none => c ++ [(app_id, rt)]

/-- Modelled from the spec: the Policy Cache/Synchronizer reconciliation
step of spec section 4.3, which lives in the BackendScheduler class that
api.py imports but which is not present under src (api.py calls
`scheduler.get_app_backends` / `scheduler.update_policy`, methods the src
backend_scheduler.py class lacks).  Per the spec: no cache entry means
construct a fresh instance of the persisted type and limit (cursor 0); a
variant mismatch means discard and reconstruct (cursor reset); a limit-only
difference means `update_limit` in place on the existing instance
(policies.py lines 12-13, cursor untouched); otherwise reuse unchanged. -/
def reconcile (cached : Option PolicyRuntime) (persisted : PolicyRow) : PolicyRuntime :=
  match cached with
  | none => { ptype := persisted.policy_type, limit := some persisted.limit, cursor := 0 }
  | some rt =>
    if rt.ptype ≠ persisted.policy_type then
      { ptype := persisted.policy_type, limit := some persisted.limit, cursor := 0 }
    else if rt.limit ≠ some persisted.limit then BackendPolicy.update_limit rt persisted.limit
    else rt

/-- Modelled from the spec: the facade selection operation
`selectBackends(appId)` of spec section 4.4 (the `get_app_backends`
method api.py line 75 calls on BackendScheduler, absent from src).  It
fetches the candidates for the app id from the store, takes the persisted
policy (default `round_robin`/1 when absent), reconciles the cached
runtime, runs the policy engine from src policies.py, and stores the
(possibly rotated) runtime back.  The random shuffle is an explicit
oracle parameter. -/
def selectBackends (shuffle : List Backend → List Backend) (db : DB)
    (cache : PolicyCache) (app_id : String) : List Backend × PolicyCache :=
  let candidates := db.backends.filter (fun r => r.app_id == app_id)
  let persisted := (getPolicyOpt db app_id).getD (defaultPolicyRow app_id)
  let rt := reconcile (cacheGet cache app_id) persisted
  match rt.ptype with
  | .round_robin =>
    let r := RoundRobinPolicy.select_backends rt candidates
    (r.1, cacheSet cache app_id r.2)
  | .weighted => (WeightedPolicy.select_backends rt.limit candidates, cacheSet cache app_id rt)
  | .all_active => (AllActivePolicy.select_backends rt.limit candidates, cacheSet cache app_id rt)
  | .random =>
    (RandomPolicy.select_backends shuffle rt.limit candidates, cacheSet cache app_id rt)

/-- The `GET /v1/\x7bapp_id\x7d/backends` route handler (api.py lines
69-78): run the facade selection, then `if result:` return a success
envelope with the list, else return an ERROR envelope with message
`No backends found for app_id=...`.  The truthiness test makes the empty
list take the error branch. -/
def get_backends_route (shuffle : List Backend → List Backend) (db : DB)
    (cache : PolicyCache) (app_id : String) : APIResponse (List Backend) × PolicyCache :=
  let r := selectBackends shuffle db cache app_id
  if r.1.isEmpty then (APIResponse.error ("No backends found for app_id=" ++ app_id), r.2)
  else (APIResponse.success (some r.1) "success", r.2)

/-- Modelled from the spec: the facade registration operation
`registerBackend(appId, backend)` of spec section 4.4 (the `add_backend`
method api.py line 38 calls with signature `(db, backend)` returning a
backend/policy pair, absent from src, whose BackendScheduler.add_backend
has the older host-based signature).  Per the spec: call the store `add`
(db_operations.py lines 7-26); if no Policy row exists for the app id
(which under the invariant of spec section 3 is the first-backend case),
upsert the default policy via the store (db_operations.py lines 119-137);
return the stored backend with the effective policy. -/
def registerBackend (db : DB) (backend : Backend) :
    Except PyErr (Backend × PolicyRow) × DB :=
  match DBOperations.add_backend db backend with
  | (.error e, db0) => (.error e, db0)
  | (.ok stored, db1) =>
    match getPolicyOpt db1 backend.app_id with
    | some p => (.ok (stored, p), db1)
    | none =>
      let pr := DBOperations.add_or_update_policy db1 backend.app_id
        (defaultPolicyRow backend.app_id)
      (.ok (stored, pr.1), pr.2)

/-- The Backend pydantic model of models.py lines 33-47 (the older model:
id, name, host, weight, state). -/
structure ModelsBackend where
  id : String
  name : String
  host : String
  weight : Int
  state : String
deriving DecidableEq, Repr

/-- models.py line 34 reads `id: str = str(uuid.uuid4())`: the default
expression is evaluated ONCE, when the class body is executed at import
time, and the resulting single string is stored as the field default.
This constant stands for that one uuid4() evaluation. -/
def modelsBackendDefaultId : String := "7150a9e6-1d3e-4e2e-9f66-c1d0a5b7e201"

/-- Construction of a models.py Backend: a registration call that omits
`id` receives the class-level default id; one that supplies `id` uses it.
The validator on `state` is irrelevant to the id field. -/
def mkModelsBackend (id_arg : Option String) (name host : String) (weight : Int)
    (state : String) : ModelsBackend :=
  { id := id_arg.getD modelsBackendDefaultId, name := name, host := host,
    weight := weight, state := state }

/-- A backend list iterated round-robin: run `select_backends` `n` times
against the same candidate list, collecting each call's result. -/
def rrRun (st : PolicyRuntime) (bs : List Backend) : Nat → List (List Backend) × PolicyRuntime
  | 0 => ([], st)
  | n + 1 =>
    let r := RoundRobinPolicy.select_backends st bs
    let rest := rrRun r.2 bs n
    (r.1 :: rest.1, rest.2)

/-- Run `select_backends` once per candidate list in `css`, threading the
instance state, collecting each call's result. -/
def rrRunMany (st : PolicyRuntime) : List (List Backend) → List (List Backend) × PolicyRuntime
  | [] => ([], st)
  | bs :: rest =>
    let r := RoundRobinPolicy.select_backends st bs
    let more := rrRunMany r.2 rest
    (r.1 :: more.1, more.2)

/-- A freshly constructed `RoundRobinPolicy(limit=1)`. -/
def freshRR : PolicyRuntime := { ptype := .round_robin, limit := some 1, cursor := 0 }

/-- Concrete backends used by witnesses and counterexamples. -/
def exA1 : Backend := { app_id := "A", instance_id := "a1", weight := 1, state := "active" }

def exA2 : Backend := { app_id := "A", instance_id := "a2", weight := 1, state := "active" }

def exB1 : Backend := { app_id := "B", instance_id := "b1", weight := 1, state := "active" }

def exB2 : Backend := { app_id := "B", instance_id := "b2", weight := 1, state := "active" }

def exDown : Backend := { app_id := "app2", instance_id := "d1", weight := 1, state := "down" }

/-- A store already holding one backend, for duplicate-registration cases. -/
def exDB1 : DB := { backends := [exA1], policies := [] }

/-- A store whose only backend for app2 is down. -/
def exDBdown : DB := { backends := [exDown], policies := [] }

/-- The empty store. -/
def exDBempty : DB := { backends := [], policies := [] }


/-- A backend that collides with exA1 on instance_id under another app. -/
def exDupA1 : Backend := { app_id := "X", instance_id := "a1", weight := 2, state := "active" }

/-- Shorthand for the effective limit a round-robin call computes:
`min(self.limit or 1, len(active))`. -/
def rrEff (st : PolicyRuntime) (act : List Backend) : Int :=
  min (pyOrOne st.limit) (act.length : Int)

/-- Shorthand for the instance state a round-robin call leaves behind when
`act` is the nonempty active sublist. -/
def rrNext (st : PolicyRuntime) (act : List Backend) : PolicyRuntime :=
  { st with
      limit := some (rrEff st act),
      cursor := (((st.cursor : Int) + rrEff st act) % (act.length : Int)).toNat }

theorem pyTakeInt_eq_take {α : Type} (l : List α) (m : Int) (h : 0 ≤ m) :
    pyTakeInt l m = l.take m.toNat := by
  simp [pyTakeInt, h]

theorem pyTakeInt_sublist {α : Type} (l : List α) (m : Int) :
    List.Sublist (pyTakeInt l m) l := by
  unfold pyTakeInt
  split <;> exact List.take_sublist _ _

theorem applyLimit_nil {α : Type} (lim : Option Int) : applyLimit lim ([] : List α) = [] := by
  cases lim <;> simp [applyLimit, pyTakeInt]

theorem applyLimit_sublist {α : Type} (lim : Option Int) (l : List α) :
    List.Sublist (applyLimit lim l) l := by
  cases lim with
  | none => exact List.Sublist.refl l
  | some m =>
    simp only [applyLimit]
    split
    · exact pyTakeInt_sublist l m
    · exact List.Sublist.refl l

theorem applyLimit_one {α : Type} (l : List α) : applyLimit (some 1) l = l.take 1 := by
  simp only [applyLimit]
  split
  · rw [pyTakeInt_eq_take _ _ (by omega)]
    rfl
  · rename_i h
    have h2 : l.length ≤ 1 := by omega
    rw [List.take_of_length_le h2]

theorem head?_take {α : Type} (l : List α) (k : Nat) (hk : 1 ≤ k) :
    (l.take k).head? = l.head? := by
  cases l with
  | nil => simp
  | cons a t =>
    cases k with
    | zero => omega
    | succ k => simp

/-- When no candidate is active, round-robin returns empty with the
instance state (cursor and limit) untouched. -/
theorem rr_select_no_active (st : PolicyRuntime) (bs : List Backend)
    (h : bs.filter (fun b => b.state == "active") = []) :
    RoundRobinPolicy.select_backends st bs = ([], st) := by
  unfold RoundRobinPolicy.select_backends
  by_cases hbs : bs.isEmpty
  · simp [hbs]
  · simp [hbs, h]

/-- The one-step unfolding of round-robin selection when some candidate is
active. -/
theorem rr_select_step (st : PolicyRuntime) (bs act : List Backend)
    (hact : bs.filter (fun b => b.state == "active") = act) (hne : act ≠ []) :
    RoundRobinPolicy.select_backends st bs =
      (applyLimit (some (rrEff st act)) (act.drop st.cursor ++ act.take st.cursor),
        rrNext st act) := by
  have hbs : bs ≠ [] := by
    rintro rfl
    apply hne
    simpa using hact.symm
  unfold RoundRobinPolicy.select_backends
  rw [hact]
  simp [hbs, hne, rrEff, rrNext]

/-- From cursor `c`, `k` consecutive round-robin calls with limit 1 return
the active backends at positions `c, c+1, ..., c+k-1`, one per call, as
long as `c + k` stays within the active count. -/
theorem rr_cycle_from (bs act : List Backend)
    (hact : bs.filter (fun b => b.state == "active") = act) :
    ∀ (k c : Nat), c + k ≤ act.length →
      (rrRun { ptype := .round_robin, limit := some 1, cursor := c } bs k).1
        = ((act.drop c).take k).map (fun b => [b]) := by
  intro k
  induction k with
  | zero => intro c h; simp [rrRun]
  | succ k ih =>
    intro c h
    have hc : c < act.length := by omega
    have hne : act ≠ [] := by
      intro h0
      rw [h0] at hc
      simp at hc
    have heff : rrEff { ptype := .round_robin, limit := some 1, cursor := c } act = 1 := by
      have h1 : 1 ≤ act.length := by omega
      have h1i : (1 : Int) ≤ (act.length : Int) := by exact_mod_cast h1
      simp [rrEff, pyOrOne]
      omega
    have hdrop : act.drop c = act[c] :: act.drop (c + 1) := List.drop_eq_getElem_cons hc
    simp only [rrRun]
    rw [rr_select_step _ _ _ hact hne, heff, applyLimit_one]
    have hres : ((act.drop c ++ act.take c).take 1) = [act[c]] := by
      rw [hdrop, List.cons_append]
      rfl
    rw [hres, hdrop]
    simp only [List.take_succ_cons, List.map_cons]
    by_cases hcase : c + 1 < act.length
    · have hstep := ih (c + 1) (by omega)
      have hrt : rrNext { ptype := .round_robin, limit := some 1, cursor := c } act
          = { ptype := .round_robin, limit := some 1, cursor := c + 1 } := by
        simp only [rrNext, heff]
        have hmodeq : (((c : Int) + 1) % (act.length : Int)) = (c : Int) + 1 :=
          Int.emod_eq_of_lt (by omega) (by exact_mod_cast hcase)
        simp [hmodeq]
      rw [hrt, hstep]
    · have hk0 : k = 0 := by omega
      subst hk0
      simp [rrRun]

/-- C1: for round-robin with limit 1, starting from a freshly constructed
policy instance, as many consecutive `select_backends` calls as there are
active backends in the fixed candidate list return each active backend
exactly once, one per call, in the order the backends appear in the input
list, before any repeats.  (Each call returns the singleton of the next
active backend, so the run is exactly the active sublist in input
order.) -/
theorem round_robin_visits_each_once_in_order (bs : List Backend) :
    (rrRun freshRR bs ((bs.filter (fun b => b.state == "active")).length)).1
      = (bs.filter (fun b => b.state == "active")).map (fun b => [b]) := by
  have h := rr_cycle_from bs (bs.filter (fun b => b.state == "active")) rfl
    ((bs.filter (fun b => b.state == "active")).length) 0 (by omega)
  simpa [freshRR] using h

theorem mem_orderedInsertDesc {y a : Backend} {l : List Backend} :
    y ∈ orderedInsertDesc a l ↔ y = a ∨ y ∈ l := by
  induction l with
  | nil => simp [orderedInsertDesc]
  | cons b t ih =>
    simp only [orderedInsertDesc]
    split
    · simp [List.mem_cons]
    · simp only [List.mem_cons, ih]
      tauto

theorem pairwise_orderedInsertDesc (a : Backend) (l : List Backend)
    (h : l.Pairwise (fun x y => y.weight ≤ x.weight)) :
    (orderedInsertDesc a l).Pairwise (fun x y => y.weight ≤ x.weight) := by
  induction l with
  | nil => simp [orderedInsertDesc]
  | cons b t ih =>
    rcases List.pairwise_cons.mp h with ⟨hb, ht⟩
    simp only [orderedInsertDesc]
    split
    · rename_i hba
      refine List.pairwise_cons.mpr ⟨?_, h⟩
      intro y hy
      rcases List.mem_cons.mp hy with rfl | hyt
      · exact hba
      · exact le_trans (hb y hyt) hba
    · rename_i hba
      refine List.pairwise_cons.mpr ⟨?_, ih ht⟩
      intro y hy
      rcases mem_orderedInsertDesc.mp hy with rfl | hyt
      · exact le_of_not_le hba
      · exact hb y hyt

theorem pairwise_sortDescWeight (l : List Backend) :
    (sortDescWeight l).Pairwise (fun x y => y.weight ≤ x.weight) := by
  induction l with
  | nil => simp [sortDescWeight]
  | cons a t ih => exact pairwise_orderedInsertDesc a _ ih

theorem filter_orderedInsertDesc_eq (w : Int) (a : Backend) (l : List Backend)
    (ha : a.weight = w) :
    (orderedInsertDesc a l).filter (fun x => x.weight == w)
      = a :: l.filter (fun x => x.weight == w) := by
  induction l with
  | nil => simp [orderedInsertDesc, List.filter, ha]
  | cons b t ih =>
    simp only [orderedInsertDesc]
    split
    · rename_i hba
      simp [List.filter_cons, ha]
    · rename_i hba
      have hblt : a.weight < b.weight := lt_of_not_le hba
      have hbw : (b.weight == w) = false := by
        simp only [beq_eq_false_iff_ne]
        omega
      simp [List.filter_cons, hbw, ih]

theorem filter_orderedInsertDesc_ne (w : Int) (a : Backend) (l : List Backend)
    (ha : ¬ a.weight = w) :
    (orderedInsertDesc a l).filter (fun x => x.weight == w)
      = l.filter (fun x => x.weight == w) := by
  have haw : (a.weight == w) = false := by
    simp only [beq_eq_false_iff_ne]
    exact ha
  induction l with
  | nil => simp [orderedInsertDesc, haw]
  | cons b t ih =>
    simp only [orderedInsertDesc]
    split
    · simp [List.filter_cons, haw]
    · simp [List.filter_cons, ih]

theorem filter_sortDescWeight (w : Int) (l : List Backend) :
    (sortDescWeight l).filter (fun x => x.weight == w)
      = l.filter (fun x => x.weight == w) := by
  induction l with
  | nil => rfl
  | cons a t ih =>
    simp only [sortDescWeight]
    by_cases ha : a.weight = w
    · rw [filter_orderedInsertDesc_eq w a _ ha, ih, List.filter_cons]
      simp [ha]
    · rw [filter_orderedInsertDesc_ne w a _ ha, ih, List.filter_cons]
      simp [ha]

/-- C7: weighted selection filters to active backends, stably sorts them by
weight in descending order and returns the first `limit` elements: in the
result, a backend is never placed before another of strictly greater weight
(the result is pairwise weight-descending), and for every weight value the
equal-weight backends of the result appear in the same relative order as in
the active sublist of the input (their filter is a sublist of the input
filter). -/
theorem weighted_descending_and_stable (limit : Option Int) (bs : List Backend) :
    (WeightedPolicy.select_backends limit bs).Pairwise (fun a b => b.weight ≤ a.weight) ∧
    ∀ w : Int,
      List.Sublist
        ((WeightedPolicy.select_backends limit bs).filter (fun x => x.weight == w))
        ((bs.filter (fun b => b.state == "active")).filter (fun x => x.weight == w)) := by
  by_cases h : (bs.filter (fun b => b.state == "active")).isEmpty
  · constructor
    · simp [WeightedPolicy.select_backends, h]
    · intro w
      simp [WeightedPolicy.select_backends, h]
  · have hsel : WeightedPolicy.select_backends limit bs
        = applyLimit limit (sortDescWeight (bs.filter (fun b => b.state == "active"))) := by
      simp [WeightedPolicy.select_backends, h]
    rw [hsel]
    constructor
    · exact (pairwise_sortDescWeight _).sublist (applyLimit_sublist _ _)
    · intro w
      have h1 := (applyLimit_sublist limit
        (sortDescWeight (bs.filter (fun b => b.state == "active")))).filter
        (fun x => x.weight == w)
      rw [filter_sortDescWeight] at h1
      exact h1

theorem weighted_no_active (limit : Option Int) (bs : List Backend)
    (h : bs.filter (fun b => b.state == "active") = []) :
    WeightedPolicy.select_backends limit bs = [] := by
  simp [WeightedPolicy.select_backends, h]

theorem all_active_no_active (limit : Option Int) (bs : List Backend)
    (h : bs.filter (fun b => b.state == "active") = []) :
    AllActivePolicy.select_backends limit bs = [] := by
  simp [AllActivePolicy.select_backends, h, applyLimit_nil]

theorem random_no_active (shuffle : List Backend → List Backend) (limit : Option Int)
    (bs : List Backend) (h : bs.filter (fun b => b.state == "active") = []) :
    RandomPolicy.select_backends shuffle limit bs = [] := by
  simp [RandomPolicy.select_backends, h]

/-- C2 (amended): when the app id has no registered backends, or all of its
backends are down, the facade selection returns the empty list — under
every configured policy type and any shuffle — but the
`GET /v1/.../backends` route of api.py then takes the falsy branch and
wraps the empty result in an ERROR envelope (`code=1`,
`No backends found for app_id=...`), not a success. -/
theorem empty_selection_yields_error_envelope (shuffle : List Backend → List Backend)
    (db : DB) (cache : PolicyCache) (app_id : String)
    (h : (db.backends.filter (fun r => r.app_id == app_id)).filter
      (fun b => b.state == "active") = []) :
    (selectBackends shuffle db cache app_id).1 = [] ∧
    (get_backends_route shuffle db cache app_id).1
      = APIResponse.error ("No backends found for app_id=" ++ app_id) := by
  have h1 : (selectBackends shuffle db cache app_id).1 = [] := by
    simp only [selectBackends]
    split
    · rw [rr_select_no_active _ _ h]
    · exact weighted_no_active _ _ h
    · exact all_active_no_active _ _ h
    · exact random_no_active _ _ _ h
  refine ⟨h1, ?_⟩
  simp [get_backends_route, h1]

/-- C2 witness: the amended behaviour at the empty store. -/
theorem empty_selection_yields_error_envelope_witness :
    (selectBackends id exDBempty [] "app1").1 = [] ∧
    (get_backends_route id exDBempty [] "app1").1
      = APIResponse.error ("No backends found for app_id=" ++ "app1") :=
  empty_selection_yields_error_envelope id exDBempty [] "app1" rfl

/-- C2 counterexample: on an app id with no registered backends, and on an
app id whose only backend is down, the backend-selection route answers with
an error envelope (`code = 1`), not an empty success, refuting the claim as
stated. -/
theorem empty_and_down_selection_route_errors :
    (get_backends_route id exDBempty [] "app1").1.code = 1 ∧
    (get_backends_route id exDBdown [] "app2").1.code = 1 := by decide

/-- C4 (code bug): models.py line 34 declares `id: str = str(uuid.uuid4())`,
so the default id expression is evaluated a single time at class definition
and SHARED by every construction that omits `id`: two separate
registrations that do not supply an id receive the identical id, not
distinct ones. -/
theorem backend_default_id_shared :
    (mkModelsBackend none "b1" "h1" 1 "active").id
      = (mkModelsBackend none "b2" "h2" 1 "active").id := rfl

/-- C5 counterexample: registering a duplicate `instance_id` and removing a
nonexistent backend both fail with the SAME generic exception class
(`ValueError`, db_operations.py lines 13 and 48), not with two distinct
`ConflictError`/`NotFoundError` types as claimed. -/
theorem duplicate_and_missing_same_error_class :
    (DBOperations.add_backend exDB1 exDupA1).1
      = .error (.valueError "Backend with a1 already exists") ∧
    (DBOperations.remove_backend exDB1 "A" "nope").1
      = .error (.valueError "Backend not found") ∧
    PyErr.className (.valueError "Backend with a1 already exists")
      = PyErr.className (.valueError "Backend not found") := by
  refine ⟨rfl, rfl, rfl⟩

/-- C6 counterexample: POLICY_MAP holds ONE round-robin instance shared by
every app id.  With fresh state, a single selection for app A (two active
backends) moves the shared cursor from 0 to 1, so app B's very next
selection is served starting from B's SECOND backend — the cursor observed
by app B did not stay unchanged. -/
theorem shared_policy_map_cursor_leak :
    (sharedSelectRR initPolicyMap [exA1, exA2]).1 = [exA1] ∧
    ((sharedSelectRR initPolicyMap [exA1, exA2]).2).rr.cursor = 1 ∧
    (sharedSelectRR ((sharedSelectRR initPolicyMap [exA1, exA2]).2) [exB1, exB2]).1
      = [exB2] := by
  refine ⟨by decide, by decide, by decide⟩

theorem filter_eq_nil_of_find?_none {α : Type} (p : α → Bool) (l : List α)
    (h : l.find? p = none) : l.filter p = [] := by
  induction l with
  | nil => rfl
  | cons a t ih =>
    by_cases hpa : p a
    · rw [List.find?_cons_of_pos _ hpa] at h
      exact absurd h (by simp)
    · rw [List.find?_cons_of_neg _ hpa] at h
      simp only [List.filter_cons]
      rw [if_neg (by simpa using hpa)]
      exact ih h

/-- C3: when the store holds no backend with this instance identity and no
Policy row for the backend's app id, `registerBackend` stores the backend,
upserts the default policy (`round_robin`, limit 1), returns the pair of
the stored backend and that effective policy, and afterwards exactly one
Policy row exists for the app id. -/
theorem register_first_backend_creates_default_policy (db : DB) (b : Backend)
    (hinst : db.backends.find? (fun r => r.instance_id == b.instance_id) = none)
    (hpol : getPolicyOpt db b.app_id = none) :
    (registerBackend db b).1 = .ok (b, defaultPolicyRow b.app_id) ∧
    (((registerBackend db b).2).policies.filter
      (fun p => p.app_id == b.app_id)).length = 1 := by
  have hadd : DBOperations.add_backend db b
      = (.ok b, { db with backends := db.backends ++ [b] }) := by
    unfold DBOperations.add_backend
    rw [hinst]
  have hpol1 : getPolicyOpt { db with backends := db.backends ++ [b] } b.app_id = none :=
    hpol
  have hupsert : DBOperations.add_or_update_policy
      { db with backends := db.backends ++ [b] } b.app_id (defaultPolicyRow b.app_id)
      = (defaultPolicyRow b.app_id,
          { backends := db.backends ++ [b],
            policies := db.policies ++ [defaultPolicyRow b.app_id] }) := by
    unfold DBOperations.add_or_update_policy
    rw [show ({ db with backends := db.backends ++ [b] } : DB).policies.find?
      (fun p => p.app_id == b.app_id) = none from hpol]
    rfl
  have hfe : db.policies.filter (fun p => p.app_id == b.app_id) = [] :=
    filter_eq_nil_of_find?_none _ _ hpol
  have hreg : registerBackend db b
      = (.ok (b, defaultPolicyRow b.app_id),
          { backends := db.backends ++ [b],
            policies := db.policies ++ [defaultPolicyRow b.app_id] }) := by
    simp only [registerBackend, hadd, hpol1, hupsert]
  rw [hreg]
  refine ⟨rfl, ?_⟩
  simp [List.filter_append, hfe, defaultPolicyRow]

/-- C3 witness: registering the first backend of app A into the empty store
creates the default round-robin policy and leaves exactly one Policy row
for A. -/
theorem register_first_backend_creates_default_policy_witness :
    (registerBackend exDBempty exA1).1 = .ok (exA1, defaultPolicyRow exA1.app_id) ∧
    (((registerBackend exDBempty exA1).2).policies.filter
      (fun p => p.app_id == exA1.app_id)).length = 1 :=
  register_first_backend_creates_default_policy exDBempty exA1 rfl rfl

/-- C5 (amended): registering a backend whose `instance_id` already exists
anywhere in the registry fails and leaves the store unchanged, registering
a fresh identity persists the record and returns it, and removing a
backend matching no (app id, backend id) pair fails with
`Backend not found` — but both failures are raised as the same generic
`ValueError` class (distinguished only by message), not as distinct
ConflictError/NotFoundError types. -/
theorem store_add_remove_error_behaviour :
    (∀ (db : DB) (b : Backend),
      (db.backends.find? (fun r => r.instance_id == b.instance_id)).isSome →
      DBOperations.add_backend db b
        = (.error (.valueError ("Backend with " ++ b.instance_id ++ " already exists")),
            db)) ∧
    (∀ (db : DB) (b : Backend),
      db.backends.find? (fun r => r.instance_id == b.instance_id) = none →
      DBOperations.add_backend db b = (.ok b, { db with backends := db.backends ++ [b] })) ∧
    (∀ (db : DB) (a bid : String),
      db.backends.find? (fun r => r.app_id == a && r.instance_id == bid) = none →
      DBOperations.remove_backend db a bid
        = (.error (.valueError "Backend not found"), db)) := by
  refine ⟨?_, ?_, ?_⟩
  · intro db b h
    unfold DBOperations.add_backend
    cases hf : db.backends.find? (fun r => r.instance_id == b.instance_id) with
    | none => rw [hf] at h; simp at h
    | some r => rfl
  · intro db b h
    unfold DBOperations.add_backend
    rw [h]
  · intro db a bid h
    unfold DBOperations.remove_backend
    rw [h]

/-- C5 witness: the three store behaviours at concrete inputs. -/
theorem store_add_remove_error_behaviour_witness :
    DBOperations.add_backend exDB1 exDupA1
      = (.error (.valueError ("Backend with " ++ exDupA1.instance_id ++ " already exists")),
          exDB1) ∧
    DBOperations.add_backend exDBempty exB1
      = (.ok exB1, { exDBempty with backends := exDBempty.backends ++ [exB1] }) ∧
    DBOperations.remove_backend exDB1 "A" "nope"
      = (.error (.valueError "Backend not found"), exDB1) :=
  ⟨store_add_remove_error_behaviour.1 exDB1 exDupA1 rfl,
    store_add_remove_error_behaviour.2.1 exDBempty exB1 rfl,
    store_add_remove_error_behaviour.2.2 exDB1 "A" "nope" rfl⟩

/-- C6 (amended): rotation state lives in ONE shared live instance per
policy TYPE (POLICY_MAP), not one per application id: with a fresh shared
round-robin instance (limit 1, cursor 0) and two app ids whose candidate
lists are all active with at least two elements each, a single selection
for the first app advances the shared cursor to 1, and the very next
selection for the second app is served from ITS index-1 backend — the
cursor observed by the other app id has changed. -/
theorem shared_cursor_across_apps (m : PolicyMap) (bsA bsB : List Backend)
    (hm : m.rr.limit = some 1) (hc : m.rr.cursor = 0)
    (hA : ∀ b ∈ bsA, b.state = "active") (hA2 : 2 ≤ bsA.length)
    (hB : ∀ b ∈ bsB, b.state = "active") (hB2 : 1 < bsB.length) :
    ((sharedSelectRR m bsA).2).rr.cursor = 1 ∧
    (sharedSelectRR ((sharedSelectRR m bsA).2) bsB).1 = [bsB.get ⟨1, hB2⟩] := by
  have hfA : bsA.filter (fun b => b.state == "active") = bsA :=
    List.filter_eq_self.mpr (fun b hb => by simpa using hA b hb)
  have hfB : bsB.filter (fun b => b.state == "active") = bsB :=
    List.filter_eq_self.mpr (fun b hb => by simpa using hB b hb)
  have hneA : bsA ≠ [] := by
    intro h0
    rw [h0] at hA2
    simp at hA2
  have hneB : bsB ≠ [] := by
    intro h0
    rw [h0] at hB2
    simp at hB2
  have h1A : (1 : Int) ≤ (bsA.length : Int) := by exact_mod_cast (by omega : 1 ≤ bsA.length)
  have h1B : (1 : Int) ≤ (bsB.length : Int) := by exact_mod_cast (by omega : 1 ≤ bsB.length)
  have heffA : rrEff m.rr bsA = 1 := by
    simp [rrEff, hm, pyOrOne]
    omega
  have hcur1 : (rrNext m.rr bsA).cursor = 1 := by
    have hlt : (0 : Int) + 1 < (bsA.length : Int) := by exact_mod_cast (by omega : 0 + 1 < bsA.length)
    simp only [rrNext, heffA, hc]
    rw [Int.emod_eq_of_lt (by omega) (by exact_mod_cast hlt)]
    rfl
  have hlim1 : (rrNext m.rr bsA).limit = some 1 := by
    simp [rrNext, heffA]
  have heffB : rrEff (rrNext m.rr bsA) bsB = 1 := by
    simp [rrEff, hlim1, pyOrOne]
    omega
  have hs1 := rr_select_step m.rr bsA bsA hfA hneA
  have hs2 := rr_select_step (rrNext m.rr bsA) bsB bsB hfB hneB
  constructor
  · simp only [sharedSelectRR, hs1]
    exact hcur1
  · simp only [sharedSelectRR, hs1, hs2]
    rw [heffB, applyLimit_one, hcur1]
    rw [List.drop_eq_getElem_cons hB2, List.cons_append]
    rfl

/-- C6 witness: the amended shared-cursor behaviour at concrete apps A
and B. -/
theorem shared_cursor_across_apps_witness :
    ((sharedSelectRR initPolicyMap [exA1, exA2]).2).rr.cursor = 1 ∧
    (sharedSelectRR ((sharedSelectRR initPolicyMap [exA1, exA2]).2) [exB1, exB2]).1
      = [exB2] := by
  have h := shared_cursor_across_apps initPolicyMap [exA1, exA2] [exB1, exB2] rfl rfl
    (by decide) (by decide) (by decide) (by decide)
  exact ⟨h.1, h.2⟩

theorem applyLimit_head? {α : Type} (m : Int) (hm : 1 ≤ m) (l : List α) :
    (applyLimit (some m) l).head? = l.head? := by
  simp only [applyLimit]
  split
  · rw [pyTakeInt_eq_take _ _ (by omega), head?_take _ _ (by omega)]
  · rfl

/-- C8: switching an app's policy type away from round-robin and back
rebuilds the runtime with cursor 0, so the next selection starts from the
first active backend; a limit-only difference is applied via
`update_limit` on the existing live instance, leaving the round-robin
cursor exactly as it was. -/
theorem policy_type_switch_resets_limit_update_preserves :
    (∀ (rt : PolicyRuntime) (pOther pRR : PolicyRow) (bs : List Backend),
      rt.ptype = .round_robin → pOther.policy_type ≠ .round_robin →
      pRR.policy_type = .round_robin → 1 ≤ pRR.limit →
      (reconcile (some (reconcile (some rt) pOther)) pRR).cursor = 0 ∧
      (reconcile (some (reconcile (some rt) pOther)) pRR).ptype = .round_robin ∧
      ((RoundRobinPolicy.select_backends
          (reconcile (some (reconcile (some rt) pOther)) pRR) bs).1).head?
        = (bs.filter (fun b => b.state == "active")).head?) ∧
    (∀ (rt : PolicyRuntime) (p : PolicyRow),
      rt.ptype = p.policy_type → rt.limit ≠ some p.limit →
      reconcile (some rt) p = BackendPolicy.update_limit rt p.limit ∧
      (reconcile (some rt) p).cursor = rt.cursor) := by
  constructor
  · intro rt pOther pRR bs h1 h2 h3 h4
    have hne1 : rt.ptype ≠ pOther.policy_type := by
      rw [h1]
      exact fun hq => h2 hq.symm
    have hr1 : reconcile (some rt) pOther
        = { ptype := pOther.policy_type, limit := some pOther.limit, cursor := 0 } := by
      simp [reconcile, hne1]
    have hne2 : pOther.policy_type ≠ pRR.policy_type := by
      rw [h3]
      exact h2
    have hr2 : reconcile (some (reconcile (some rt) pOther)) pRR
        = { ptype := pRR.policy_type, limit := some pRR.limit, cursor := 0 } := by
      rw [hr1]
      simp [reconcile, hne2]
    refine ⟨by rw [hr2], by rw [hr2, h3], ?_⟩
    rw [hr2]
    by_cases hact : bs.filter (fun b => b.state == "active") = []
    · rw [rr_select_no_active _ _ hact, hact]
    · have hs := rr_select_step
        { ptype := pRR.policy_type, limit := some pRR.limit, cursor := 0 } bs
        (bs.filter (fun b => b.state == "active")) rfl hact
      rw [hs]
      have hlen1 : 1 ≤ (bs.filter (fun b => b.state == "active")).length := by
        have := List.length_pos.mpr hact
        omega
      have heff : rrEff { ptype := pRR.policy_type, limit := some pRR.limit, cursor := 0 }
          (bs.filter (fun b => b.state == "active"))
          = min pRR.limit ((bs.filter (fun b => b.state == "active")).length : Int) := by
        have h0 : pRR.limit ≠ 0 := by omega
        simp [rrEff, pyOrOne, h0]
      have heff1 : 1 ≤ rrEff { ptype := pRR.policy_type, limit := some pRR.limit, cursor := 0 }
          (bs.filter (fun b => b.state == "active")) := by
        rw [heff]
        have : (1 : Int) ≤ ((bs.filter (fun b => b.state == "active")).length : Int) := by
          exact_mod_cast hlen1
        omega
      simp only [List.drop_zero, List.take_zero, List.append_nil]
      exact applyLimit_head? _ heff1 _
  · intro rt p h1 h2
    constructor
    · simp [reconcile, h1, h2]
    · simp [reconcile, h1, h2, BackendPolicy.update_limit]

/-- C8 witness: a round-robin runtime at cursor 1 switched to weighted and
back to round-robin is rebuilt at cursor 0 and its next selection over two
active backends starts at the first one; a limit-only change on a runtime
at cursor 5 keeps the cursor at 5. -/
theorem policy_type_switch_resets_limit_update_preserves_witness :
    (reconcile (some (reconcile
        (some { ptype := .round_robin, limit := some 1, cursor := 1 })
        { app_id := "A", policy_type := .weighted, limit := 2 }))
        { app_id := "A", policy_type := .round_robin, limit := 1 }).cursor = 0 ∧
    ((RoundRobinPolicy.select_backends
        (reconcile (some (reconcile
          (some { ptype := .round_robin, limit := some 1, cursor := 1 })
          { app_id := "A", policy_type := .weighted, limit := 2 }))
          { app_id := "A", policy_type := .round_robin, limit := 1 })
        [exA1, exA2]).1).head?
      = ([exA1, exA2].filter (fun b => b.state == "active")).head? ∧
    (reconcile (some { ptype := .round_robin, limit := some 1, cursor := 5 })
        { app_id := "A", policy_type := .round_robin, limit := 2 }).cursor = 5 := by
  have h1 := policy_type_switch_resets_limit_update_preserves.1
    { ptype := .round_robin, limit := some 1, cursor := 1 }
    { app_id := "A", policy_type := .weighted, limit := 2 }
    { app_id := "A", policy_type := .round_robin, limit := 1 }
    [exA1, exA2] rfl (by decide) rfl (by decide)
  have h2 := policy_type_switch_resets_limit_update_preserves.2
    { ptype := .round_robin, limit := some 1, cursor := 5 }
    { app_id := "A", policy_type := .round_robin, limit := 2 } rfl (by decide)
  exact ⟨h1.1, h1.2.2, h2.2⟩

/-- C9 counterexample: `update_policy_limit` accepts a limit below 1: at
`new_limit = 0` it answers a SUCCESS envelope (`code = 0`) and overwrites
the shared round-robin instance limit with 0, instead of failing with a
validation error and leaving the limit unchanged. -/
theorem limit_update_below_one_succeeds :
    (update_policy_limit initPolicyMap .round_robin 0).1.code = 0 ∧
    ((update_policy_limit initPolicyMap .round_robin 0).2).rr.limit = some 0 := by
  refine ⟨by decide, by decide⟩

/-- C9 (amended): a weight update below 1 fails with
`ValueError "Weight must be greater than 0"` and leaves the store
unchanged, and a weight update of at least 1 on an existing backend
returns the updated record; but the policy-limit update path performs NO
validation: every integer limit, including values below 1, is stored via
`update_limit` and acknowledged with a success envelope. -/
theorem weight_validated_but_limit_not :
    (∀ (db : DB) (a bid : String) (w : Int), w < 1 →
      DBOperations.update_backend_weight db a bid w
        = (.error (.valueError "Weight must be greater than 0"), db)) ∧
    (∀ (db : DB) (a bid : String) (w : Int) (r : Backend), 1 ≤ w →
      db.backends.find? (fun x => x.app_id == a && x.instance_id == bid) = some r →
      (DBOperations.update_backend_weight db a bid w).1 = .ok { r with weight := w }) ∧
    (∀ (m : PolicyMap) (pt : PolicyType) (l : Int),
      (update_policy_limit m pt l).1.code = 0 ∧
      ((update_policy_limit m pt l).2).get pt = BackendPolicy.update_limit (m.get pt) l) := by
  refine ⟨?_, ?_, ?_⟩
  · intro db a bid w hw
    unfold DBOperations.update_backend_weight
    rw [if_pos hw]
  · intro db a bid w r hw hf
    unfold DBOperations.update_backend_weight
    rw [if_neg (by omega), hf]
  · intro m pt l
    refine ⟨rfl, ?_⟩
    cases pt <;> rfl

/-- C9 witness: the three update behaviours at concrete inputs. -/
theorem weight_validated_but_limit_not_witness :
    DBOperations.update_backend_weight exDB1 "A" "a1" 0
      = (.error (.valueError "Weight must be greater than 0"), exDB1) ∧
    (DBOperations.update_backend_weight exDB1 "A" "a1" 5).1 = .ok { exA1 with weight := 5 } ∧
    (update_policy_limit initPolicyMap .round_robin 0).1.code = 0 ∧
    ((update_policy_limit initPolicyMap .round_robin 0).2).get .round_robin
      = BackendPolicy.update_limit (initPolicyMap.get .round_robin) 0 := by
  have h2 := weight_validated_but_limit_not.2.1 exDB1 "A" "a1" 5 exA1 (by decide) rfl
  have h3 := weight_validated_but_limit_not.2.2 initPolicyMap .round_robin 0
  exact ⟨weight_validated_but_limit_not.1 exDB1 "A" "a1" 0 (by decide), h2, h3.1, h3.2⟩

theorem applyLimit_length_le {α : Type} (m : Int) (hm : 0 ≤ m) (l : List α) :
    ((applyLimit (some m) l).length : Int) ≤ m := by
  simp only [applyLimit]
  split
  · rw [pyTakeInt_eq_take _ _ hm]
    simp only [List.length_take]
    omega
  · rename_i h
    omega

/-- One round-robin call never raises the stored limit: from a state with
limit `m ≥ 1` it moves to a state with limit `m2`, `1 ≤ m2 ≤ m`, and
returns at most `m2` backends. -/
theorem rr_select_limit_mono (st : PolicyRuntime) (bs : List Backend) (m : Int)
    (h : st.limit = some m) (hm : 1 ≤ m) :
    ∃ m2, 1 ≤ m2 ∧ m2 ≤ m ∧
      ((RoundRobinPolicy.select_backends st bs).2).limit = some m2 ∧
      (((RoundRobinPolicy.select_backends st bs).1).length : Int) ≤ m2 := by
  by_cases hact : bs.filter (fun b => b.state == "active") = []
  · refine ⟨m, hm, le_refl m, ?_, ?_⟩
    · rw [rr_select_no_active _ _ hact]
      exact h
    · rw [rr_select_no_active _ _ hact]
      simp
      omega
  · have hs := rr_select_step st bs _ rfl hact
    have hlen1 : 1 ≤ (bs.filter (fun b => b.state == "active")).length := by
      have := List.length_pos.mpr hact
      omega
    have hlen1i : (1 : Int) ≤ ((bs.filter (fun b => b.state == "active")).length : Int) := by
      exact_mod_cast hlen1
    have heff : rrEff st (bs.filter (fun b => b.state == "active"))
        = min m ((bs.filter (fun b => b.state == "active")).length : Int) := by
      have h0 : m ≠ 0 := by omega
      simp [rrEff, h, pyOrOne, h0]
    have heff1 : 1 ≤ rrEff st (bs.filter (fun b => b.state == "active")) := by
      rw [heff]
      omega
    refine ⟨rrEff st (bs.filter (fun b => b.state == "active")), heff1, ?_, ?_, ?_⟩
    · rw [heff]
      omega
    · rw [hs]
      simp [rrNext]
    · rw [hs]
      exact applyLimit_length_le _ (by omega) _

/-- Once the stored limit is `m ≤ A` with `m ≥ 1`, every later round-robin
call on the same instance returns at most `A` backends, whatever candidate
lists are passed. -/
theorem rrRunMany_length_bound (A : Int) (css : List (List Backend)) :
    ∀ (st : PolicyRuntime) (m : Int), st.limit = some m → 1 ≤ m → m ≤ A →
      ∀ r ∈ (rrRunMany st css).1, (r.length : Int) ≤ A := by
  induction css with
  | nil =>
    intro st m h hm hA r hr
    simp [rrRunMany] at hr
  | cons bs rest ih =>
    intro st m h hm hA r hr
    obtain ⟨m2, hm2a, hm2b, hm2c, hm2d⟩ := rr_select_limit_mono st bs m h hm
    simp only [rrRunMany, List.mem_cons] at hr
    rcases hr with rfl | hr
    · omega
    · exact ih _ m2 hm2c hm2a (by omega) r hr

/-- C10: a round-robin call whose candidate list holds fewer active
backends than the configured limit permanently overwrites the instance
limit with the active count, and every later call on the same instance —
whatever candidate lists it receives, including ones with more active
backends than the original limit — returns at most that clamped number of
backends. -/
theorem round_robin_limit_clamp_is_permanent (st : PolicyRuntime) (bs1 : List Backend)
    (css : List (List Backend)) (m : Int)
    (hlim : st.limit = some m)
    (ha1 : 0 < (bs1.filter (fun b => b.state == "active")).length)
    (ham : ((bs1.filter (fun b => b.state == "active")).length : Int) < m) :
    ((RoundRobinPolicy.select_backends st bs1).2).limit
      = some ((bs1.filter (fun b => b.state == "active")).length : Int) ∧
    ∀ r ∈ (rrRunMany ((RoundRobinPolicy.select_backends st bs1).2) css).1,
      (r.length : Int) ≤ ((bs1.filter (fun b => b.state == "active")).length : Int) := by
  have hne : bs1.filter (fun b => b.state == "active") ≠ [] := by
    intro h0
    rw [h0] at ha1
    simp at ha1
  have hm1 : 1 ≤ m := by omega
  have hs := rr_select_step st bs1 _ rfl hne
  have heff : rrEff st (bs1.filter (fun b => b.state == "active"))
      = ((bs1.filter (fun b => b.state == "active")).length : Int) := by
    have h0 : m ≠ 0 := by omega
    simp [rrEff, hlim, pyOrOne, h0]
    omega
  have hlimit2 : ((RoundRobinPolicy.select_backends st bs1).2).limit
      = some ((bs1.filter (fun b => b.state == "active")).length : Int) := by
    rw [hs]
    simp [rrNext, heff]
  refine ⟨hlimit2, ?_⟩
  intro r hr
  exact rrRunMany_length_bound ((bs1.filter (fun b => b.state == "active")).length : Int)
    css ((RoundRobinPolicy.select_backends st bs1).2)
    ((bs1.filter (fun b => b.state == "active")).length : Int)
    hlimit2 (by omega) (le_refl _) r hr

/-- C10 witness: with configured limit 3 and a first call over 2 active
backends, the stored limit is clamped to 2 and a later call over 5 active
backends still returns at most 2. -/
theorem round_robin_limit_clamp_is_permanent_witness :
    ((RoundRobinPolicy.select_backends
        { ptype := .round_robin, limit := some 3, cursor := 0 } [exA1, exA2]).2).limit
      = some 2 ∧
    ∀ r ∈ (rrRunMany ((RoundRobinPolicy.select_backends
        { ptype := .round_robin, limit := some 3, cursor := 0 } [exA1, exA2]).2)
        [[exA1, exA2, exB1, exB2, exDupA1]]).1,
      (r.length : Int) ≤ 2 := by
  have h := round_robin_limit_clamp_is_permanent
    { ptype := .round_robin, limit := some 3, cursor := 0 } [exA1, exA2]
    [[exA1, exA2, exB1, exB2, exDupA1]] 3 rfl (by decide) (by decide)
  exact ⟨h.1, h.2⟩
